import Mathlib

/-!
Verification of the yeelight UDP discovery engine (`src/src/discover.ts`).

The `Discover` class owns a `dgram` socket, broadcasts an SSDP-style probe,
collects replies into an in-memory device list (`addDevice`), and runs a
200 ms `setInterval` poll loop that settles the `start()` promise when the
reply limit is reached or the timeout elapses.  `destroy()` removes the
emitter listeners and closes the socket.

The embedding below translates the class state into an explicit record,
the poll tick into a pure function producing the ordered list of promise
settlements the tick attempts (JavaScript promise semantics: the first
settlement wins, later `resolve`/`reject` calls on a settled promise are
no-ops), and `start`/`destroy`/`onSocketMessage` into state transformers.
The Node `dgram` socket collaborator is modelled by the three-state
machine `SocketState` together with the documented throwing behaviour of
`Socket.bind` and `Socket.close`.
-/

namespace Yeelight

/-- Modelled from the spec: the device record interface `IDevice`
(`src/models/device.ts` is not among the provided sources).  The spec (§3)
describes a record as a stable identifier plus network-address and
model/capability metadata; the discovery engine itself only ever inspects
the `id` field, so the metadata is collapsed into two representative
string fields. -/
structure IDevice where
  id : String
  location : String
  model : String
  deriving Repr, DecidableEq

/-- The discovery configuration object `IDiscoverConfig` as consumed by
`discover.ts` (fields read by the engine: `debug`, `host`, `limit`,
`multicastHost`, `port`, `timeout`). -/
structure IDiscoverConfig where
  debug : Bool
  host : String
  limit : Nat
  multicastHost : String
  port : Nat
  timeout : Nat
  deriving Repr, DecidableEq

/-- The default options initialised on the `Discover` class
(`discover.ts`, the `options` field initialiser). -/
def defaultOptions : IDiscoverConfig :=
  { debug := true
    host := ""
    limit := 1
    multicastHost := "239.255.255.250"
    port := 1982
    timeout := 10000 }

/-- JavaScript `Array.prototype.findIndex` on the device list with the
predicate `(x) => x.id === device.id`: the index of the first match, `-1`
when there is none. -/
def findIndexJS (devices : List IDevice) (targetId : String) : Int :=
  match devices.findIdx? (fun x => x.id == targetId) with
  | some i => (i : Int)
  | none => -1

/-- `Discover.addDevice`, translated verbatim:

    const existDevice = this.devices.findIndex((x) => x.id === device.id);
    if (existDevice <= 0) { this.devices.push(device); return 1; }
    this.devices[existDevice] = device; return 0;

Returns the updated list and the numeric return value (`1` = "new device
added", `0` = "device already existing" per the source's doc comment).
Note the condition is `existDevice <= 0`, which is also true when the
match sits at index `0`. -/
def addDevice (devices : List IDevice) (device : IDevice) : List IDevice × Nat :=
  let existDevice := findIndexJS devices device.id
  if existDevice ≤ 0 then
    (devices ++ [device], 1)
  else
    (devices.set existDevice.toNat device, 0)

/-- Number of records in a device list carrying a given identifier. -/
def countWithId (devices : List IDevice) (i : String) : Nat :=
  (devices.filter (fun x => x.id == i)).length

/-- State of the Node `dgram` socket owned by the engine, as documented
for `dgram.Socket`: created (not yet bound), bound, or closed.
`bind` on a bound socket throws `ERR_SOCKET_ALREADY_BOUND`; `bind` or
`close` on a closed socket throws `ERR_SOCKET_DGRAM_NOT_RUNNING`. -/
inductive SocketState
  | created
  | bound
  | closed
  deriving Repr, DecidableEq

/-- Rejection reasons observable from `start()`/`destroy()`.
`errSocketAlreadyBound` and `errSocketDgramNotRunning` are the `dgram`
throws that a `new Promise` executor converts into rejections;
`sendError` stands for the error object handed to the `send` callback;
`specAlreadyStarted` is modelled from the spec: the spec's error taxonomy
(§7) names an `AlreadyStarted` error kind, but no such value appears
anywhere in `discover.ts`, so no code path of the embedding produces this
constructor. -/
inductive DiscoverError
  | errSocketAlreadyBound
  | errSocketDgramNotRunning
  | sendError
  | specAlreadyStarted
  deriving Repr, DecidableEq

/-- The mutable fields of a `Discover` instance relevant to the claims:
the device list, the socket state, whether the `setInterval` poll timer
is live, and whether listeners are still registered on the
`EventEmitter` base (removed by `destroy()` via `removeAllListeners`). -/
structure EngineState where
  devices : List IDevice
  socket : SocketState
  timerActive : Bool
  emitterListeners : Bool
  deriving Repr, DecidableEq

/-- State right after the constructor ran: empty device list, socket
created (with the `message` handler attached) but not bound, no poll
timer. -/
def initialEngineState : EngineState :=
  { devices := []
    socket := SocketState.created
    timerActive := false
    emitterListeners := true }

/-- A settlement attempt on the `start()` promise. -/
inductive Settlement
  | resolve (devices : List IDevice)
  | reject (msg : String)
  deriving Repr, DecidableEq

/-- The rejection string built in the timeout branch:
`"No device found after timeout exceeded : " + ts`. -/
def noDeviceFoundMessage (ts : Nat) : String :=
  "No device found after timeout exceeded : " ++ toString ts

/-- Settlements attempted by the first `if` of the poll tick
(`if (this.devices.length >= this.options.limit) { clearInterval; resolve }`). -/
def limitSettlements (o : IDiscoverConfig) (devices : List IDevice) : List Settlement :=
  if o.limit ≤ devices.length then [Settlement.resolve devices] else []

/-- Settlements attempted by the second `if` of the poll tick
(`if (this.options.timeout > 0 && this.options.timeout < ts) { ... }`):
resolve with the current list when it is nonempty, otherwise reject with
the no-device message.  The comparison in the source is strict:
`this.options.timeout < ts`. -/
def timeoutSettlements (o : IDiscoverConfig) (devices : List IDevice) (ts : Nat) :
    List Settlement :=
  if 0 < o.timeout ∧ o.timeout < ts then
    if 0 < devices.length then [Settlement.resolve devices]
    else [Settlement.reject (noDeviceFoundMessage ts)]
  else []

/-- All settlement attempts of one poll tick, in source evaluation order.
The two `if` statements are not chained with `else`, so both lists are
evaluated on every tick; under promise semantics the head of this list is
the settlement that takes effect. -/
def tickSettlements (o : IDiscoverConfig) (devices : List IDevice) (ts : Nat) :
    List Settlement :=
  limitSettlements o devices ++ timeoutSettlements o devices ts

/-- The effective outcome of one poll tick: the first settlement attempt
wins (a promise settles at most once); `none` means the loop continues. -/
def tickOutcome (o : IDiscoverConfig) (devices : List IDevice) (ts : Nat) :
    Option Settlement :=
  (tickSettlements o devices ts).head?

/-- One poll tick as a state transformer: `clearInterval(timer)` is called
exactly when some branch settles, so the timer stays active iff no
settlement was produced; nothing else of the instance state is touched by
the tick body. -/
def pollTickStep (o : IDiscoverConfig) (st : EngineState) (ts : Nat) :
    EngineState × Option Settlement :=
  let s := tickSettlements o st.devices ts
  ({ st with timerActive := st.timerActive && s.isEmpty }, s.head?)

/-- Immediate result of a `start()` call: either the promise is left
pending with the poll timer running, or it is rejected straight away. -/
inductive StartResult
  | polling
  | rejected (e : DiscoverError)
  deriving Repr, DecidableEq

/-- `Discover.start` up to the creation of the poll loop.  `bind` on an
already-bound or closed socket throws inside the promise executor, which
rejects the returned promise and leaves the instance state untouched.  On
a fresh socket the engine binds, enables broadcast and sends the probe;
`sendFails` says whether the `send` callback receives an error.  On a
send error the code only calls `reject(err)` — the socket is left bound
and open.  On success the `setInterval` poll timer is installed. -/
def startCall (st : EngineState) (sendFails : Bool) : EngineState × StartResult :=
  match st.socket with
  | SocketState.bound => (st, StartResult.rejected DiscoverError.errSocketAlreadyBound)
  | SocketState.closed => (st, StartResult.rejected DiscoverError.errSocketDgramNotRunning)
  | SocketState.created =>
      if sendFails then
        ({ st with socket := SocketState.bound },
          StartResult.rejected DiscoverError.sendError)
      else
        ({ st with socket := SocketState.bound, timerActive := true },
          StartResult.polling)

/-- Result of a `destroy()` call. -/
inductive DestroyResult
  | resolved
  | rejected (e : DiscoverError)
  deriving Repr, DecidableEq

/-- `Discover.destroy`, translated verbatim.  The guard `if (!this.client)`
is dead code: `this.client` is assigned in the constructor and never
cleared, so the promise branch always runs.  `removeAllListeners()`
detaches the emitter subscribers, then `this.client.close(resolve)` closes
the socket; on an already-closed socket `close` throws
`ERR_SOCKET_DGRAM_NOT_RUNNING` inside the executor, rejecting the returned
promise.  The poll timer is never cleared here. -/
def destroyCall (st : EngineState) : EngineState × DestroyResult :=
  let st1 := { st with emitterListeners := false }
  match st1.socket with
  | SocketState.closed =>
      (st1, DestroyResult.rejected DiscoverError.errSocketDgramNotRunning)
  | _ => ({ st1 with socket := SocketState.closed }, DestroyResult.resolved)

/-- `Discover.onSocketMessage` after decoding and logging: the external
parser's verdict is passed in as `parsed` (the parser `Utils.parseDeviceInfo`
is an external collaborator).  A `some` verdict upserts via `addDevice` and
emits `deviceAdded` with the parsed record (the second component); `none`
leaves the state untouched and emits nothing. -/
def onSocketMessage (st : EngineState) (parsed : Option IDevice) :
    EngineState × Option IDevice :=
  match parsed with
  | some device =>
      ({ st with devices := (addDevice st.devices device).1 }, some device)
  | none => (st, none)

/-- The fixed SSDP search probe built by `Discover.getMessage`. -/
def getMessage : String :=
  "M-SEARCH * HTTP/1.1\r\nHOST: 239.255.255.250:1982\r\nMAN: \"ssdp:discover\"\r\nST: wifi_bulb\r\n"

/-- Fixture: a device with identifier `"a"`. -/
def devA1 : IDevice := { id := "a", location := "yeelight://192.168.1.2:55443", model := "color" }

/-- Fixture: a second reply for identifier `"a"` with different metadata. -/
def devA2 : IDevice := { id := "a", location := "yeelight://192.168.1.9:55443", model := "mono" }

/-- Fixture: a device with identifier `"b"`. -/
def devB : IDevice := { id := "b", location := "yeelight://192.168.1.3:55443", model := "stripe" }

/-- Fixture: default options with a 200 ms timeout (one tick interval). -/
def cfg200 : IDiscoverConfig := { defaultOptions with timeout := 200 }

/-- Fixture: default options with `timeout = 0` (unbounded) and limit 2. -/
def cfg0 : IDiscoverConfig := { defaultOptions with timeout := 0, limit := 2 }

/-- Fixture: an engine whose run has completed (promise settled, timer
cleared) with one device collected; the socket is still bound because no
code path of `start()` closes it. -/
def stAfterRun : EngineState :=
  { devices := [devA1]
    socket := SocketState.bound
    timerActive := false
    emitterListeners := true }

/-- Fixture: an engine in mid-run (polling, one device collected). -/
def stRun : EngineState :=
  { devices := [devA1]
    socket := SocketState.bound
    timerActive := true
    emitterListeners := true }

/-- C1: the claim states that at most one record per identifier exists at
any time, with an upsert matching at any position — including position 0 —
replacing rather than appending.  The code violates this: `addDevice`
tests `existDevice <= 0`, so a duplicate identifier found at index 0 is
pushed again, leaving two records with identifier `"a"` in the list. -/
theorem addDevice_breaks_uniqueness_at_index_zero :
    countWithId (addDevice [devA1] devA2).1 "a" = 2 ∧
    (addDevice [devA1] devA2).1.length = 2 := by
  exact ⟨by decide, by decide⟩

/-- C2: the claim states last-write-wins replacement with `count()`
unchanged at every position of the existing record, including index 0.
The code replaces correctly when the match is at an index ≥ 1 (second
conjunct), but when the match is at index 0 it appends the new record and
reports "added" (`1`), growing the list from one entry to two (first
conjunct). -/
theorem addDevice_appends_at_index_zero :
    addDevice [devA1] devA2 = ([devA1, devA2], 1) ∧
    addDevice [devB, devA1] devA2 = ([devB, devA2], 0) := by
  exact ⟨by decide, by decide⟩

/-- C3: on every poll tick the limit condition is evaluated before the
timeout condition, so on a tick where the limit is reached — even one
where the timeout has also expired — the first settlement attempt is the
limit branch's `resolve(this.devices)`, and under promise semantics that
settlement wins the tie. -/
theorem tick_limit_checked_before_timeout (o : IDiscoverConfig)
    (devices : List IDevice) (ts : Nat) (hl : 1 ≤ o.limit) (ht : 0 < o.timeout)
    (hcount : o.limit ≤ devices.length) (hexp : o.timeout ≤ ts) :
    tickSettlements o devices ts
      = Settlement.resolve devices :: timeoutSettlements o devices ts ∧
    tickOutcome o devices ts = some (Settlement.resolve devices) := by
  have hline : limitSettlements o devices = [Settlement.resolve devices] := by
    simp [limitSettlements, hcount]
  refine ⟨?_, ?_⟩
  · simp [tickSettlements, hline]
  · simp [tickOutcome, tickSettlements, hline]

/-- Witness for the tie-break theorem at a concrete tie tick: limit 1,
timeout 200 ms, one device collected, tick at `ts = 200`. -/
theorem tick_limit_checked_before_timeout_witness :
    1 ≤ cfg200.limit ∧ 0 < cfg200.timeout ∧
    cfg200.limit ≤ ([devA1] : List IDevice).length ∧ cfg200.timeout ≤ 200 ∧
    tickOutcome cfg200 [devA1] 200 = some (Settlement.resolve [devA1]) :=
  ⟨by decide, by decide, by decide, by decide,
    (tick_limit_checked_before_timeout cfg200 [devA1] 200 (by decide) (by decide)
      (by decide) (by decide)).2⟩

/-- C4 counterexample: with `timeout = 200` and an empty registry, the
first tick with `elapsed ≥ timeoutMs` is `ts = 200`, yet the tick outcome
there is `none` (the loop continues), because the source compares
strictly (`this.options.timeout < ts`); the run only terminates one tick
later, at `ts = 400`. -/
theorem tick_not_fired_at_exact_timeout :
    cfg200.timeout ≤ 200 ∧ ([] : List IDevice).length < cfg200.limit ∧
    tickOutcome cfg200 [] 200 = none ∧
    tickOutcome cfg200 [] 400 = some (Settlement.reject (noDeviceFoundMessage 400)) :=
  ⟨by decide, by decide, rfl, rfl⟩

/-- C4 amended: when the limit is not reached, a poll tick settles the run
iff `elapsed > timeoutMs` (strictly), resolving with the snapshot when the
registry is nonempty and otherwise rejecting with the no-device message
carrying the elapsed value (which therefore satisfies `elapsed ≥ timeoutMs`). -/
theorem tick_timeout_fires_strictly_after (o : IDiscoverConfig)
    (devices : List IDevice) (ts : Nat) (hto : 0 < o.timeout)
    (hlim : devices.length < o.limit) :
    tickOutcome o devices ts =
      if o.timeout < ts then
        (if 0 < devices.length then some (Settlement.resolve devices)
         else some (Settlement.reject (noDeviceFoundMessage ts)))
      else none := by
  have hline : limitSettlements o devices = [] := by
    simp [limitSettlements, Nat.not_le.mpr hlim]
  by_cases hts : o.timeout < ts
  · by_cases hd : 0 < devices.length
    · simp [tickOutcome, tickSettlements, hline, timeoutSettlements, hto, hts, hd]
    · simp [tickOutcome, tickSettlements, hline, timeoutSettlements, hto, hts, hd]
  · simp [tickOutcome, tickSettlements, hline, timeoutSettlements, hts]

/-- Witness for the strict-timeout theorem: timeout 200 ms, empty
registry, tick at `ts = 600`. -/
theorem tick_timeout_fires_strictly_after_witness :
    0 < cfg200.timeout ∧ ([] : List IDevice).length < cfg200.limit ∧
    tickOutcome cfg200 [] 600 =
      (if cfg200.timeout < 600 then
        (if 0 < ([] : List IDevice).length then some (Settlement.resolve [])
         else some (Settlement.reject (noDeviceFoundMessage 600)))
      else none) :=
  ⟨by decide, by decide, tick_timeout_fires_strictly_after cfg200 [] 600 (by decide) (by decide)⟩

/-- C5 counterexample: after a successful first `start()`, a second
`start()` on the same engine is rejected with the `dgram` socket's
`ERR_SOCKET_ALREADY_BOUND` throw — not with the spec's `AlreadyStarted`
error, which no code path constructs. -/
theorem second_start_not_already_started :
    (startCall (startCall initialEngineState false).1 false).2
      = StartResult.rejected DiscoverError.errSocketAlreadyBound ∧
    DiscoverError.errSocketAlreadyBound ≠ DiscoverError.specAlreadyStarted :=
  ⟨rfl, by decide⟩

/-- C5 amended: a second `start()` on an engine whose socket is already
bound (any state after a first successful bind, whether the first run is
still pending or settled) rejects with the socket layer's already-bound
error and leaves the instance state — hence the first call's outcome —
completely unchanged. -/
theorem second_start_rejects_bound (st : EngineState) (b : Bool)
    (h : st.socket = SocketState.bound) :
    startCall st b = (st, StartResult.rejected DiscoverError.errSocketAlreadyBound) := by
  unfold startCall
  rw [h]

/-- Witness for the second-start theorem: first start succeeds, second
start rejects with the already-bound error and preserves the state. -/
theorem second_start_rejects_bound_witness :
    ((startCall initialEngineState false).1).socket = SocketState.bound ∧
    startCall (startCall initialEngineState false).1 false
      = ((startCall initialEngineState false).1,
         StartResult.rejected DiscoverError.errSocketAlreadyBound) :=
  ⟨rfl, second_start_rejects_bound (startCall initialEngineState false).1 false rfl⟩

/-- C6: with `timeout = 0` the guard `this.options.timeout > 0` is false
on every tick, so the timeout branch produces no settlement and a tick
settles the run only by reaching the reply limit; otherwise the loop
continues (termination is then possible only through the limit or an
external `destroy()`). -/
theorem tick_never_times_out_when_zero (o : IDiscoverConfig)
    (devices : List IDevice) (ts : Nat) (h : o.timeout = 0) :
    timeoutSettlements o devices ts = [] ∧
    tickOutcome o devices ts =
      (if o.limit ≤ devices.length then some (Settlement.resolve devices) else none) := by
  have ht : timeoutSettlements o devices ts = [] := by
    simp [timeoutSettlements, h]
  refine ⟨ht, ?_⟩
  by_cases hc : o.limit ≤ devices.length
  · simp [tickOutcome, tickSettlements, limitSettlements, hc, ht]
  · simp [tickOutcome, tickSettlements, limitSettlements, hc, ht]

/-- Witness for the unbounded-run theorem: `timeout = 0`, limit 2, one
device, an arbitrarily late tick at `ts = 1000000` still continues. -/
theorem tick_never_times_out_when_zero_witness :
    cfg0.timeout = 0 ∧
    timeoutSettlements cfg0 [devA1] 1000000 = [] ∧
    tickOutcome cfg0 [devA1] 1000000 =
      (if cfg0.limit ≤ ([devA1] : List IDevice).length
        then some (Settlement.resolve [devA1]) else none) :=
  ⟨rfl, (tick_never_times_out_when_zero cfg0 [devA1] 1000000 rfl).1,
    (tick_never_times_out_when_zero cfg0 [devA1] 1000000 rfl).2⟩

/-- C7 counterexample: when the broadcast send fails, `start()` rejects
with the send error, but the socket is left in the bound state — the send
callback only calls `reject(err)` and never closes the socket, so the
endpoint is not released before the error propagates. -/
theorem send_failure_socket_not_released :
    (startCall initialEngineState true).2 = StartResult.rejected DiscoverError.sendError ∧
    ((startCall initialEngineState true).1).socket = SocketState.bound ∧
    SocketState.bound ≠ SocketState.closed :=
  ⟨rfl, rfl, by decide⟩

/-- C7 amended: a send failure immediately rejects the run with the send
error, but the socket is not released: it remains bound (and stays open
until `destroy()` is called). -/
theorem send_failure_rejects_keeps_socket (st : EngineState)
    (h : st.socket = SocketState.created) :
    startCall st true
      = ({ st with socket := SocketState.bound },
         StartResult.rejected DiscoverError.sendError) := by
  unfold startCall
  rw [h]
  rfl

/-- Witness for the send-failure theorem on a freshly constructed engine. -/
theorem send_failure_rejects_keeps_socket_witness :
    initialEngineState.socket = SocketState.created ∧
    startCall initialEngineState true
      = ({ initialEngineState with socket := SocketState.bound },
         StartResult.rejected DiscoverError.sendError) :=
  ⟨rfl, send_failure_rejects_keeps_socket initialEngineState rfl⟩

/-- C8: `destroy()` closes the socket (so datagram callbacks do stop) but
never clears the `setInterval` poll timer — `clearInterval` is only
reachable inside the tick branches.  Concretely: start an engine with the
default options (limit 1, timeout 10000), destroy it while the run is
pending; the timer is still active after `destroy()`, and the next tick
past the timeout still executes and rejects the pending `start()` promise
with the no-device message. -/
theorem destroy_leaves_poll_timer_running :
    ((destroyCall (startCall initialEngineState false).1).1).timerActive = true ∧
    ((destroyCall (startCall initialEngineState false).1).1).socket = SocketState.closed ∧
    (pollTickStep defaultOptions (destroyCall (startCall initialEngineState false).1).1 10200).2
      = some (Settlement.reject (noDeviceFoundMessage 10200)) :=
  ⟨rfl, rfl, rfl⟩

/-- C9: `destroy()` resolves when called before `start()` was ever invoked
and after a completed run, but a second `destroy()` does not succeed: the
first one closed the socket, and `close()` on a closed socket throws
`ERR_SOCKET_DGRAM_NOT_RUNNING` inside the promise executor, so the second
call's promise is rejected (the dead `if (!this.client)` guard never
intercepts it because `this.client` is never cleared). -/
theorem second_destroy_rejects :
    (destroyCall initialEngineState).2 = DestroyResult.resolved ∧
    (destroyCall stAfterRun).2 = DestroyResult.resolved ∧
    (destroyCall (destroyCall initialEngineState).1).2
      = DestroyResult.rejected DiscoverError.errSocketDgramNotRunning :=
  ⟨rfl, rfl, rfl⟩

/-- C10: a tick that settles the `start()` promise does not detach the
socket message handler: the socket stays bound, a later datagram whose
payload parses to a device still upserts it via `addDevice` and still
emits `deviceAdded` with it; only `destroy()` closes the socket and so
stops the datagram path. -/
theorem datagrams_handled_after_completion (o : IDiscoverConfig)
    (st : EngineState) (ts : Nat) (d : IDevice)
    (hb : st.socket = SocketState.bound)
    (hres : (pollTickStep o st ts).2.isSome = true) :
    ((pollTickStep o st ts).1).socket = SocketState.bound ∧
    (onSocketMessage (pollTickStep o st ts).1 (some d)).1.devices
      = (addDevice st.devices d).1 ∧
    (onSocketMessage (pollTickStep o st ts).1 (some d)).2 = some d ∧
    ((destroyCall (pollTickStep o st ts).1).1).socket = SocketState.closed := by
  refine ⟨?_, ?_, ?_, ?_⟩ <;>
    simp [pollTickStep, onSocketMessage, destroyCall, hb]

/-- Witness for the post-completion datagram theorem: default options
(limit 1), one device collected, the tick at `ts = 200` resolves the run,
and a later datagram for device `"b"` is still upserted and emitted. -/
theorem datagrams_handled_after_completion_witness :
    stRun.socket = SocketState.bound ∧
    ((pollTickStep defaultOptions stRun 200).2.isSome = true) ∧
    (onSocketMessage (pollTickStep defaultOptions stRun 200).1 (some devB)).1.devices
      = (addDevice stRun.devices devB).1 :=
  ⟨rfl, by decide,
    (datagrams_handled_after_completion defaultOptions stRun 200 devB rfl (by decide)).2.1⟩

end Yeelight
